import Mathlib

/-!
Verification of the nutrition evaluation scoring engine.

A shallow embedding of the scoring core of `nutrition_evaluator.py`
(class `NutritionEvaluator`): the expected-answer construction of
`_initialize_prompts`, the response scoring entry point `_score_response`,
the dispatcher `_compare_json_accuracy`, and the four comparators
`_score_factual_accuracy`, `_score_mathematical_computation`,
`_score_health_recommendations`, `_score_error_detection`.

Modelling conventions:
* Python values produced by `json.loads` (dict / list / str / number /
  bool / None) are embedded as the inductive type `PyVal`.  Python int,
  float and bool are unified into exact rationals for arithmetic
  (`True == 1` in Python), with `PyVal.bool` kept as a separate
  constructor for non-arithmetic contexts.
* Python exceptions raised by the scoring code (`AttributeError` from
  calling `.get` on a non-dict, `TypeError` from arithmetic on
  non-numbers or iterating a non-iterable, `KeyError` from `d[k]` on a
  missing key) are embedded as `Except PyErr`.
* `json.loads` itself is an external library call; its outcome is a
  parameter of type `Option PyVal`, where `Option.none` stands for the
  `json.JSONDecodeError` branch and `Option.some v` for a successful
  parse producing `v`.
* Python floats are modelled as exact rationals `ℚ`; the claims under
  study concern strict-versus-non-strict tolerance comparisons and
  exact formulas, not rounding behaviour.
-/

/-- A Python value as produced by `json.loads` (or built literally in the
evaluator source): None, bool, number (int/float unified as `ℚ`),
string, list, or dict with string keys. -/
inductive PyVal where
  | none : PyVal
  | bool : Bool → PyVal
  | num : ℚ → PyVal
  | str : String → PyVal
  | list : List PyVal → PyVal
  | dict : List (String × PyVal) → PyVal

/-- The Python exceptions the scoring code can raise. -/
inductive PyErr where
  | attrError : PyErr
  | typeError : PyErr
  | keyError : PyErr
deriving DecidableEq

/-- Python numeric coercion for arithmetic and comparisons: ints and
floats are numbers, `True`/`False` count as `1`/`0`; everything else is
not a number. -/
def pyAsNum : PyVal → Option ℚ
  | PyVal.num q => Option.some q
  | PyVal.bool b => Option.some (if b then 1 else 0)
  | _ => Option.none

/-- Python `d.get(k, default)`: on a dict, the value at `k` or the
default; on any other value, `AttributeError`. -/
def pyGet (v : PyVal) (k : String) (default : PyVal) : Except PyErr PyVal :=
  match v with
  | PyVal.dict fs => Except.ok ((fs.lookup k).getD default)
  | _ => Except.error PyErr.attrError

/-- Python `d.get(k)` (one-argument form): default is `None`. -/
def pyGetOpt (v : PyVal) (k : String) : Except PyErr PyVal :=
  pyGet v k PyVal.none

/-- Python `d[k]` on the expected-answer side: on a dict, the value at
`k` or `KeyError`; on any non-dict value, `TypeError`. -/
def pyGetItem (v : PyVal) (k : String) : Except PyErr PyVal :=
  match v with
  | PyVal.dict fs =>
      match fs.lookup k with
      | Option.some w => Except.ok w
      | Option.none => Except.error PyErr.keyError
  | _ => Except.error PyErr.typeError

/-- Python subtraction `a - b` as used in `abs(a - b) < tol`: both
operands must be numeric (int/float/bool), otherwise `TypeError`. -/
def pySub (a b : PyVal) : Except PyErr ℚ :=
  match pyAsNum a, pyAsNum b with
  | Option.some x, Option.some y => Except.ok (x - y)
  | _, _ => Except.error PyErr.typeError

/-- Python iteration (`for x in v`): lists yield their elements, strings
their characters, dicts their keys; other values raise `TypeError`. -/
def pyIter : PyVal → Except PyErr (List PyVal)
  | PyVal.list xs => Except.ok xs
  | PyVal.str s => Except.ok (s.toList.map (fun c => PyVal.str (String.mk [c])))
  | PyVal.dict fs => Except.ok (fs.map (fun kv => PyVal.str kv.1))
  | _ => Except.error PyErr.typeError

mutual

/-- Python `==` on values: never raises; numbers (incl. bools) compare
by value (`True == 1`), strings by content, lists elementwise, dicts by
equal key sets with equal values; `None` equals only `None`; values of
unrelated kinds are unequal. -/
def pyEq : PyVal → PyVal → Bool
  | PyVal.none, PyVal.none => true
  | PyVal.num a, PyVal.num b => a == b
  | PyVal.num a, PyVal.bool b => a == (if b then (1 : ℚ) else 0)
  | PyVal.bool a, PyVal.num b => (if a then (1 : ℚ) else 0) == b
  | PyVal.bool a, PyVal.bool b => a == b
  | PyVal.str a, PyVal.str b => a == b
  | PyVal.list as, PyVal.list bs => pyEqList as bs
  | PyVal.dict as, PyVal.dict bs => as.length == bs.length && pyDictLe as bs
  | _, _ => false

/-- Elementwise Python `==` on lists. -/
def pyEqList : List PyVal → List PyVal → Bool
  | [], [] => true
  | a :: as, b :: bs => pyEq a b && pyEqList as bs
  | _, _ => false

/-- Every key of the first association list is present in the second
with a Python-equal value (with equal lengths this is dict equality,
since Python dict keys are unique). -/
def pyDictLe : List (String × PyVal) → List (String × PyVal) → Bool
  | [], _ => true
  | (k, v) :: rest, bs =>
      (match bs.lookup k with
       | Option.some w => pyEq v w
       | Option.none => false) && pyDictLe rest bs

end

/-- The score dictionary returned by `_score_response`: keys
`accuracy`, `reasoning`, `completeness`, `practical`, `total`. -/
structure ScoreDict where
  accuracy : ℚ
  reasoning : ℚ
  completeness : ℚ
  practical : ℚ
  total : ℚ
deriving DecidableEq

/-- The third criterion of `_score_factual_accuracy`: the nested
carb-calculation triple (`net_carbs`, `fiber`, `total`) each within
`0.01` of the expected value; Python `and` short-circuits across the
three checks, so a later check is not evaluated (and cannot raise)
when an earlier one fails. -/
def check_carb_calculation (calcBlock exp_calc : PyVal) : Except PyErr Bool := do
  let vn ← pyGet calcBlock "net_carbs" (PyVal.num 0)
  let en ← pyGetItem exp_calc "net_carbs"
  let dn ← pySub vn en
  if (|dn| < 1/100) then do
    let vf ← pyGet calcBlock "fiber" (PyVal.num 0)
    let ef ← pyGetItem exp_calc "fiber"
    let df ← pySub vf ef
    if (|df| < 1/100) then do
      let vt ← pyGet calcBlock "total" (PyVal.num 0)
      let et ← pyGetItem exp_calc "total"
      let dt ← pySub vt et
      pure (decide (|dt| < 1/100))
    else pure false
  else pure false

/-- `_score_factual_accuracy(response, expected)` (prompt 1A): three
points — total fat within `0.01`, total carbohydrates within `0.01`,
and the nested carb-calculation triple (`check_carb_calculation`);
result is `(score / 3) * 100`. -/
def score_factual_accuracy (response expected : PyVal) : Except PyErr ℚ := do
  let v1 ← pyGet response "total_fat_g" (PyVal.num 0)
  let e1 ← pyGetItem expected "total_fat_g"
  let d1 ← pySub v1 e1
  let score1 : ℚ := if |d1| < 1/100 then 1 else 0
  let v2 ← pyGet response "total_carbohydrates_g" (PyVal.num 0)
  let e2 ← pyGetItem expected "total_carbohydrates_g"
  let d2 ← pySub v2 e2
  let score2 : ℚ := score1 + (if |d2| < 1/100 then 1 else 0)
  let calcBlock ← pyGet response "carb_calculation" (PyVal.dict [])
  let exp_calc ← pyGetItem expected "carb_calculation"
  let c3 ← check_carb_calculation calcBlock exp_calc
  let score3 : ℚ := score2 + (if c3 then 1 else 0)
  pure (score3 / 3 * 100)

/-- `_score_mathematical_computation(response, expected)` (prompt 2A):
four points — the carbohydrate, protein and fat calorie contributions
each within `0.1`, plus the calculated total within `0.1` (the alcohol
contribution is not checked); result is `(score / 4) * 100`. -/
def score_mathematical_computation (response expected : PyVal) : Except PyErr ℚ := do
  let calcs ← pyGet response "calculations" (PyVal.dict [])
  let exp_calcs ← pyGetItem expected "calculations"
  let vc ← pyGet calcs "carbohydrates_cal" (PyVal.num 0)
  let ec ← pyGetItem exp_calcs "carbohydrates_cal"
  let dc ← pySub vc ec
  let score1 : ℚ := if |dc| < 1/10 then 1 else 0
  let vp ← pyGet calcs "protein_cal" (PyVal.num 0)
  let ep ← pyGetItem exp_calcs "protein_cal"
  let dp ← pySub vp ep
  let score2 : ℚ := score1 + (if |dp| < 1/10 then 1 else 0)
  let vf ← pyGet calcs "fat_cal" (PyVal.num 0)
  let ef ← pyGetItem exp_calcs "fat_cal"
  let df ← pySub vf ef
  let score3 : ℚ := score2 + (if |df| < 1/10 then 1 else 0)
  let vt ← pyGet response "calculated_total_cal" (PyVal.num 0)
  let et ← pyGetItem expected "calculated_total_cal"
  let dt ← pySub vt et
  let score4 : ℚ := score3 + (if |dt| < 1/10 then 1 else 0)
  pure (score4 / 4 * 100)

/-- `_score_health_recommendations(response, expected)` (prompt 3A): one
point per condition whose `suitability` label Python-equals the expected
label; result is `(score / 3) * 100`. -/
def score_health_recommendations (response expected : PyVal) : Except PyErr ℚ := do
  let evals ← pyGet response "evaluations" (PyVal.dict [])
  let exp_evals ← pyGetItem expected "evaluations"
  let score ← ["type_2_diabetes", "high_blood_pressure", "high_cholesterol"].foldlM
    (fun (s : ℚ) condition => do
      let e ← pyGet evals condition (PyVal.dict [])
      let rsuit ← pyGetOpt e "suitability"
      let ee ← pyGetItem exp_evals condition
      let esuit ← pyGetItem ee "suitability"
      pure (if pyEq rsuit esuit then s + 1 else s)) 0
  pure (score / 3 * 100)

/-- A Python comprehension `[f(x) for x in xs]` (or the set-comprehension
variant, whose duplicate collapsing is irrelevant to the membership tests
below): applies `f` left to right, propagating the first exception. -/
def pyListMap (f : PyVal → Except PyErr PyVal) : List PyVal → Except PyErr (List PyVal)
  | [] => Except.ok []
  | x :: xs => do
      let v ← f x
      let vs ← pyListMap f xs
      pure (v :: vs)

/-- `_score_error_detection(response, expected)` (prompt 4A): one point
if `total_errors` Python-equals the expected count, one point each if
`"satFat"` / `"sodium"` appear among the reported error field names;
result is `(score / 3) * 100`.  The set of expected field names is
computed (and can raise) exactly as in the source, though its value is
unused. -/
def score_error_detection (response expected : PyVal) : Except PyErr ℚ := do
  let te ← pyGetOpt response "total_errors"
  let ete ← pyGetItem expected "total_errors"
  let score1 : ℚ := if pyEq te ete then 1 else 0
  let errors_found ← pyGet response "errors_found" (PyVal.list [])
  let expErrors ← pyGetItem expected "errors_found"
  let expItems ← pyIter expErrors
  let _expected_fields ← pyListMap (fun e => pyGetItem e "field") expItems
  let foundItems ← pyIter errors_found
  let found_fields ← pyListMap (fun e => pyGetOpt e "field") foundItems
  let score2 : ℚ := score1 +
    (if found_fields.any (fun v => pyEq (PyVal.str "satFat") v) then 1 else 0)
  let score3 : ℚ := score2 +
    (if found_fields.any (fun v => pyEq (PyVal.str "sodium") v) then 1 else 0)
  pure (score3 / 3 * 100)

/-- `_compare_json_accuracy(response, expected, prompt_id)`: dispatch on
the prompt identifier; unknown identifiers score `0.0`. -/
def compare_json_accuracy (response expected : PyVal) (prompt_id : String) :
    Except PyErr ℚ :=
  if prompt_id = "1A" then score_factual_accuracy response expected
  else if prompt_id = "2A" then score_mathematical_computation response expected
  else if prompt_id = "3A" then score_health_recommendations response expected
  else if prompt_id = "4A" then score_error_detection response expected
  else Except.ok 0

/-- The fields of a prompt-catalog entry that scoring reads (the
rendered prompt string is elided: `_score_response` never inspects it). -/
structure PromptData where
  id : String
  category : String
  difficulty : String
  expected_answer : PyVal

/-- `_score_response(prompt_data, gpt_response)`: on parse failure
(`json.JSONDecodeError`, modelled as `Option.none`) all five entries are
`0.0`; on success, `_compare_json_accuracy` is run and its value is
returned for all five entries.  Only `json.JSONDecodeError` is caught:
any `PyErr` raised by a comparator propagates. -/
def score_response (prompt_data : PromptData) (parsed : Option PyVal) :
    Except PyErr ScoreDict :=
  match parsed with
  | Option.none => Except.ok ⟨0, 0, 0, 0, 0⟩
  | Option.some response_json => do
      let accuracy_score ←
        compare_json_accuracy response_json prompt_data.expected_answer prompt_data.id
      pure ⟨accuracy_score, accuracy_score, accuracy_score, accuracy_score,
            accuracy_score⟩

/-- A nutrient profile as produced by the CSV loader
`_load_nutrition_data`: every nutrient column is present, with missing
or unparsable entries already defaulted to `0.0`, so field access never
raises.  Only the nutrients read by `_initialize_prompts` are kept. -/
structure Nutrients where
  energy : ℚ
  fat : ℚ
  netCarbs : ℚ
  protein : ℚ
  sugar : ℚ
  fiber : ℚ
  sodium : ℚ
  satFat : ℚ
  transFat : ℚ
  cholesterol : ℚ
  alcohol : ℚ

/-- The expected answer of prompt 1A (Factual Accuracy) built by
`_initialize_prompts` from the banana profile. -/
def expected_answer_1A (n : Nutrients) : PyVal :=
  PyVal.dict [
    ("total_fat_g", PyVal.num n.fat),
    ("total_carbohydrates_g", PyVal.num (n.netCarbs + n.fiber)),
    ("carb_calculation", PyVal.dict [
      ("net_carbs", PyVal.num n.netCarbs),
      ("fiber", PyVal.num n.fiber),
      ("total", PyVal.num (n.netCarbs + n.fiber))])]

/-- The expected answer of prompt 2A (Mathematical Computation) built by
`_initialize_prompts`: the 4-4-9-7 rule applied to the banana profile. -/
def expected_answer_2A (n : Nutrients) : PyVal :=
  PyVal.dict [
    ("calculations", PyVal.dict [
      ("carbohydrates_cal", PyVal.num ((n.netCarbs + n.fiber) * 4)),
      ("protein_cal", PyVal.num (n.protein * 4)),
      ("fat_cal", PyVal.num (n.fat * 9)),
      ("alcohol_cal", PyVal.num (n.alcohol * 7))]),
    ("calculated_total_cal", PyVal.num
      ((n.netCarbs + n.fiber) * 4 + n.protein * 4 + n.fat * 9 + n.alcohol * 7)),
    ("given_energy_value", PyVal.num n.energy),
    ("comparison", PyVal.dict [
      ("match", PyVal.bool false),
      ("explanation", PyVal.str "Energy likely in kJ not kcal")])]

/-- The expected answer of prompt 3A (Health Recommendations) built by
`_initialize_prompts` from the processed-food profile.  The three
`suitability` labels are the literal string `"poor"` in the source,
not computed from the sugar/sodium/saturated-fat thresholds (those
appear only in the prompt text sent to the model). -/
def expected_answer_3A (n : Nutrients) : PyVal :=
  PyVal.dict [
    ("evaluations", PyVal.dict [
      ("type_2_diabetes", PyVal.dict [
        ("suitability", PyVal.str "poor"),
        ("key_concerns", PyVal.list [PyVal.str "sugar", PyVal.str "carbs"]),
        ("specific_values", PyVal.dict [
          ("sugar_g", PyVal.num n.sugar),
          ("carbs_g", PyVal.num n.netCarbs)])]),
      ("high_blood_pressure", PyVal.dict [
        ("suitability", PyVal.str "poor"),
        ("key_concerns", PyVal.list [PyVal.str "sodium"]),
        ("specific_values", PyVal.dict [
          ("sodium_mg", PyVal.num n.sodium)])]),
      ("high_cholesterol", PyVal.dict [
        ("suitability", PyVal.str "poor"),
        ("key_concerns", PyVal.list [PyVal.str "satFat", PyVal.str "transFat"]),
        ("specific_values", PyVal.dict [
          ("sat_fat_g", PyVal.num n.satFat),
          ("trans_fat_g", PyVal.num n.transFat)])])])]

/-- The expected answer of prompt 4A (Error Detection) built by
`_initialize_prompts` from the steak profile: the two induced errors
(saturated fat set to `fat + 10`, sodium set to `-5`) with
`total_errors` equal to `2`. -/
def expected_answer_4A (n : Nutrients) : PyVal :=
  PyVal.dict [
    ("errors_found", PyVal.list [
      PyVal.dict [
        ("field", PyVal.str "satFat"),
        ("issue", PyVal.str ("Saturated fat (" ++ toString (n.fat + 10) ++
          "g) > total fat (" ++ toString n.fat ++ "g)")),
        ("why_problematic", PyVal.str
          "Saturated fat cannot exceed total fat - nutritionally impossible")],
      PyVal.dict [
        ("field", PyVal.str "sodium"),
        ("issue", PyVal.str "Negative sodium value (-5)"),
        ("why_problematic", PyVal.str
          "Sodium content cannot be negative - invalid data")]]),
    ("total_errors", PyVal.num 2)]

/-- The four-entry prompt catalog of `_initialize_prompts`, given the
three selected food profiles (banana, processed food, steak). -/
def initialize_prompts (banana processed steak : Nutrients) : List PromptData :=
  [⟨"1A", "Factual Accuracy", "Basic", expected_answer_1A banana⟩,
   ⟨"2A", "Mathematical Computation", "Intermediate", expected_answer_2A banana⟩,
   ⟨"3A", "Health Recommendations", "Advanced", expected_answer_3A processed⟩,
   ⟨"4A", "Error Detection", "Expert", expected_answer_4A steak⟩]

/-- Modelled from the spec: the legacy free-text heuristic scoring mode
is not present under `src/` (the evaluator there scores only by
structured JSON comparison), so it is modelled from the spec's
description: four keyword-presence heuristic raw scores (numeric
accuracy, reasoning connectives, completeness, practical application),
each sub-score independently capped at 100, combined as
`total = 0.4*accuracy + 0.3*reasoning + 0.2*completeness + 0.1*practical`. -/
def score_free_text (rawAccuracy rawReasoning rawCompleteness rawPractical : ℚ) :
    ScoreDict :=
  let a := min rawAccuracy 100
  let r := min rawReasoning 100
  let c := min rawCompleteness 100
  let p := min rawPractical 100
  ⟨a, r, c, p, 4/10 * a + 3/10 * r + 2/10 * c + 1/10 * p⟩

/-- Modelled from the spec: in the legacy mode the raw numeric-accuracy
sub-score is 25 points per keyword hit (before the cap at 100). -/
def legacy_accuracy_raw (hits : ℕ) : ℚ := 25 * hits

/-- The banana profile of the spec's worked scenarios: fat `0.1`,
netCarbs `19.8`, fiber `2.7`, protein `1.7`, remaining nutrients zero
(energy set to the typical kJ value `422`). -/
def bananaN : Nutrients :=
  ⟨422, 1/10, 99/5, 17/10, 0, 27/10, 0, 0, 0, 0, 0⟩

/-- An all-zero nutrient profile (every threshold trivially not
exceeded). -/
def zeroN : Nutrients := ⟨0, 0, 0, 0, 0, 0, 0, 0, 0, 0, 0⟩

-- Reduction lemmas letting `simp` evaluate `do`-chains over `Except`.

@[simp] theorem exceptBind_ok {α β : Type} (a : α) (f : α → Except PyErr β) :
    (bind (Except.ok a) f : Except PyErr β) = f a := rfl

@[simp] theorem exceptBind_error {α β : Type} (e : PyErr) (f : α → Except PyErr β) :
    (bind (Except.error e) f : Except PyErr β) = Except.error e := rfl

@[simp] theorem exceptPure_eq_ok {α : Type} (a : α) :
    (pure a : Except PyErr α) = Except.ok a := rfl

/-- A well-shaped 1A response object with the five numeric fields the
factual-accuracy comparator reads. -/
def mkResp1A (fatv carbs nc fb tot : ℚ) : PyVal :=
  PyVal.dict [
    ("total_fat_g", PyVal.num fatv),
    ("total_carbohydrates_g", PyVal.num carbs),
    ("carb_calculation", PyVal.dict [
      ("net_carbs", PyVal.num nc),
      ("fiber", PyVal.num fb),
      ("total", PyVal.num tot)])]

/-- A well-shaped 2A response object with the calorie-calculation fields
the mathematical-computation comparator reads. -/
def mkResp2A (cc pc fc ac tot : ℚ) : PyVal :=
  PyVal.dict [
    ("calculations", PyVal.dict [
      ("carbohydrates_cal", PyVal.num cc),
      ("protein_cal", PyVal.num pc),
      ("fat_cal", PyVal.num fc),
      ("alcohol_cal", PyVal.num ac)]),
    ("calculated_total_cal", PyVal.num tot),
    ("given_energy_value", PyVal.num 0),
    ("comparison", PyVal.dict [
      ("match", PyVal.bool false),
      ("explanation", PyVal.str "unit difference")])]

/-- A 4A response reporting a total-error count and a list of error
records carrying the given field names (the comparator reads only the
`field` entry of each record). -/
def mkResp4A (te : PyVal) (fields : List String) : PyVal :=
  PyVal.dict [
    ("errors_found",
      PyVal.list (fields.map (fun f => PyVal.dict [("field", PyVal.str f)]))),
    ("total_errors", te)]

/-- The 1A prompt-catalog entry over the scenario banana profile. -/
def pd1A : PromptData := ⟨"1A", "Factual Accuracy", "Basic", expected_answer_1A bananaN⟩

-- Inversion of a successful `Except` bind.

theorem bind_eq_ok {α β : Type} {x : Except PyErr α} {f : α → Except PyErr β} {b : β}
    (h : bind x f = Except.ok b) : ∃ a, x = Except.ok a ∧ f a = Except.ok b := by
  cases x with
  | ok a => exact ⟨a, rfl, h⟩
  | error e => cases h

-- Equation lemmas for `pyEq` on the shapes the claims exercise.

@[simp] theorem pyEq_str_str (a b : String) :
    pyEq (PyVal.str a) (PyVal.str b) = (a == b) := rfl

@[simp] theorem pyEq_num_num (a b : ℚ) :
    pyEq (PyVal.num a) (PyVal.num b) = (a == b) := rfl

-- Extracting the `field` entries of a list of well-shaped error records.

@[simp] theorem pyGetOpt_field_mk (f : String) :
    pyGetOpt (PyVal.dict [("field", PyVal.str f)]) "field" = Except.ok (PyVal.str f) := rfl

theorem mapM_field (fields : List String) :
    pyListMap (fun e => pyGetOpt e "field")
      (fields.map (fun f => PyVal.dict [("field", PyVal.str f)]))
      = Except.ok (fields.map PyVal.str) := by
  induction fields with
  | nil => rfl
  | cons f fs ih => simp [pyListMap, ih]

theorem any_pyEq_str (s : String) (fields : List String) :
    ((fields.map PyVal.str).any (fun v => pyEq (PyVal.str s) v)) = true ↔ s ∈ fields := by
  induction fields with
  | nil => simp
  | cons f fs ih => simp [List.any_cons, ih, List.mem_cons]

-- Range lemmas: every comparator that returns does so with a value in [0, 100].

theorem score_factual_accuracy_range {r e : PyVal} {a : ℚ}
    (h : score_factual_accuracy r e = Except.ok a) : 0 ≤ a ∧ a ≤ 100 := by
  unfold score_factual_accuracy at h
  obtain ⟨v1, -, h⟩ := bind_eq_ok h
  obtain ⟨e1, -, h⟩ := bind_eq_ok h
  obtain ⟨d1, -, h⟩ := bind_eq_ok h
  obtain ⟨v2, -, h⟩ := bind_eq_ok h
  obtain ⟨e2, -, h⟩ := bind_eq_ok h
  obtain ⟨d2, -, h⟩ := bind_eq_ok h
  obtain ⟨cb, -, h⟩ := bind_eq_ok h
  obtain ⟨ec, -, h⟩ := bind_eq_ok h
  obtain ⟨c3, -, h⟩ := bind_eq_ok h
  simp only [exceptPure_eq_ok, Except.ok.injEq] at h
  subst h
  split_ifs <;> norm_num

theorem score_mathematical_computation_range {r e : PyVal} {a : ℚ}
    (h : score_mathematical_computation r e = Except.ok a) : 0 ≤ a ∧ a ≤ 100 := by
  unfold score_mathematical_computation at h
  obtain ⟨calcs, -, h⟩ := bind_eq_ok h
  obtain ⟨ecs, -, h⟩ := bind_eq_ok h
  obtain ⟨vc, -, h⟩ := bind_eq_ok h
  obtain ⟨ec, -, h⟩ := bind_eq_ok h
  obtain ⟨dc, -, h⟩ := bind_eq_ok h
  obtain ⟨vp, -, h⟩ := bind_eq_ok h
  obtain ⟨ep, -, h⟩ := bind_eq_ok h
  obtain ⟨dp, -, h⟩ := bind_eq_ok h
  obtain ⟨vf, -, h⟩ := bind_eq_ok h
  obtain ⟨ef, -, h⟩ := bind_eq_ok h
  obtain ⟨df, -, h⟩ := bind_eq_ok h
  obtain ⟨vt, -, h⟩ := bind_eq_ok h
  obtain ⟨et, -, h⟩ := bind_eq_ok h
  obtain ⟨dt, -, h⟩ := bind_eq_ok h
  simp only [exceptPure_eq_ok, Except.ok.injEq] at h
  subst h
  split_ifs <;> norm_num

theorem score_health_recommendations_range {r e : PyVal} {a : ℚ}
    (h : score_health_recommendations r e = Except.ok a) : 0 ≤ a ∧ a ≤ 100 := by
  unfold score_health_recommendations at h
  obtain ⟨evals, -, h⟩ := bind_eq_ok h
  obtain ⟨expe, -, h⟩ := bind_eq_ok h
  obtain ⟨score, hs, h⟩ := bind_eq_ok h
  simp only [exceptPure_eq_ok, Except.ok.injEq] at h
  subst h
  simp only [List.foldlM] at hs
  obtain ⟨s1, hstep1, hs⟩ := bind_eq_ok hs
  obtain ⟨e1, -, hstep1⟩ := bind_eq_ok hstep1
  obtain ⟨r1, -, hstep1⟩ := bind_eq_ok hstep1
  obtain ⟨ee1, -, hstep1⟩ := bind_eq_ok hstep1
  obtain ⟨es1, -, hstep1⟩ := bind_eq_ok hstep1
  simp only [exceptPure_eq_ok, Except.ok.injEq] at hstep1
  obtain ⟨s2, hstep2, hs⟩ := bind_eq_ok hs
  obtain ⟨e2, -, hstep2⟩ := bind_eq_ok hstep2
  obtain ⟨r2, -, hstep2⟩ := bind_eq_ok hstep2
  obtain ⟨ee2, -, hstep2⟩ := bind_eq_ok hstep2
  obtain ⟨es2, -, hstep2⟩ := bind_eq_ok hstep2
  simp only [exceptPure_eq_ok, Except.ok.injEq] at hstep2
  obtain ⟨s3, hstep3, hs⟩ := bind_eq_ok hs
  obtain ⟨e3, -, hstep3⟩ := bind_eq_ok hstep3
  obtain ⟨r3, -, hstep3⟩ := bind_eq_ok hstep3
  obtain ⟨ee3, -, hstep3⟩ := bind_eq_ok hstep3
  obtain ⟨es3, -, hstep3⟩ := bind_eq_ok hstep3
  simp only [exceptPure_eq_ok, Except.ok.injEq] at hstep3
  simp only [exceptPure_eq_ok, Except.ok.injEq] at hs
  subst hstep1
  subst hstep2
  subst hstep3
  subst hs
  split_ifs <;> norm_num

theorem score_error_detection_range {r e : PyVal} {a : ℚ}
    (h : score_error_detection r e = Except.ok a) : 0 ≤ a ∧ a ≤ 100 := by
  unfold score_error_detection at h
  obtain ⟨te, -, h⟩ := bind_eq_ok h
  obtain ⟨ete, -, h⟩ := bind_eq_ok h
  obtain ⟨ef, -, h⟩ := bind_eq_ok h
  obtain ⟨ee, -, h⟩ := bind_eq_ok h
  obtain ⟨ei, -, h⟩ := bind_eq_ok h
  obtain ⟨xf, -, h⟩ := bind_eq_ok h
  obtain ⟨fi, -, h⟩ := bind_eq_ok h
  obtain ⟨ff, -, h⟩ := bind_eq_ok h
  simp only [exceptPure_eq_ok, Except.ok.injEq] at h
  subst h
  split_ifs <;> norm_num

theorem compare_json_accuracy_range {r e : PyVal} {pid : String} {a : ℚ}
    (h : compare_json_accuracy r e pid = Except.ok a) : 0 ≤ a ∧ a ≤ 100 := by
  unfold compare_json_accuracy at h
  split_ifs at h
  · exact score_factual_accuracy_range h
  · exact score_mathematical_computation_range h
  · exact score_health_recommendations_range h
  · exact score_error_detection_range h
  · simp only [Except.ok.injEq] at h
    subst h
    norm_num

/-- C2: for every prompt (hence every prompt identifier), a response
text that does not parse as JSON yields accuracy, reasoning,
completeness and practical sub-scores all `0` and total `0`, returned
normally (no exception propagates to the caller). -/
theorem parse_failure_zero_scores (pd : PromptData) :
    score_response pd Option.none = Except.ok ⟨0, 0, 0, 0, 0⟩ := rfl

/-- C4: for every nutrient profile, the 1A expected answer sets
total carbohydrates (both the top-level field and the nested
calculation total) to `netCarbs + fiber`, and the 2A expected answer
sets the per-macronutrient calorie contributions and the total via the
4-4-9-7 rule `(netCarbs+fiber)*4 + protein*4 + fat*9 + alcohol*7`. -/
theorem expected_answer_formulas (n : Nutrients) :
    pyGetItem (expected_answer_1A n) "total_carbohydrates_g"
      = Except.ok (PyVal.num (n.netCarbs + n.fiber)) ∧
    (pyGetItem (expected_answer_1A n) "carb_calculation" >>= fun c =>
      pyGetItem c "total") = Except.ok (PyVal.num (n.netCarbs + n.fiber)) ∧
    (pyGetItem (expected_answer_2A n) "calculations" >>= fun c =>
      pyGetItem c "carbohydrates_cal")
      = Except.ok (PyVal.num ((n.netCarbs + n.fiber) * 4)) ∧
    (pyGetItem (expected_answer_2A n) "calculations" >>= fun c =>
      pyGetItem c "protein_cal") = Except.ok (PyVal.num (n.protein * 4)) ∧
    (pyGetItem (expected_answer_2A n) "calculations" >>= fun c =>
      pyGetItem c "fat_cal") = Except.ok (PyVal.num (n.fat * 9)) ∧
    (pyGetItem (expected_answer_2A n) "calculations" >>= fun c =>
      pyGetItem c "alcohol_cal") = Except.ok (PyVal.num (n.alcohol * 7)) ∧
    pyGetItem (expected_answer_2A n) "calculated_total_cal"
      = Except.ok (PyVal.num
          ((n.netCarbs + n.fiber) * 4 + n.protein * 4 + n.fat * 9 + n.alcohol * 7)) :=
  ⟨rfl, rfl, rfl, rfl, rfl, rfl, rfl⟩

/-- C5, counterexample: on the all-zero profile (sugar `0`, not
greater than `15`), the expected suitability label for type-2 diabetes
is still `"poor"`, so the label is not derived from the sugar
threshold as the claim states. -/
theorem suitability_not_threshold_derived :
    (pyGetItem (expected_answer_3A zeroN) "evaluations" >>= fun e =>
      pyGetItem e "type_2_diabetes" >>= fun d => pyGetItem d "suitability")
      = Except.ok (PyVal.str "poor") ∧ ¬ (zeroN.sugar > 15) :=
  ⟨rfl, by norm_num [zeroN]⟩

/-- C5, amended: for every nutrient profile, the expected
suitability labels of the health-recommendations prompt are the
constant `"poor"` for all three conditions; the sugar/sodium/saturated-
fat thresholds appear only in the prompt text sent to the model, not in
the expected-answer construction. -/
theorem suitability_always_poor (n : Nutrients) :
    (pyGetItem (expected_answer_3A n) "evaluations" >>= fun e =>
      pyGetItem e "type_2_diabetes" >>= fun d => pyGetItem d "suitability")
      = Except.ok (PyVal.str "poor") ∧
    (pyGetItem (expected_answer_3A n) "evaluations" >>= fun e =>
      pyGetItem e "high_blood_pressure" >>= fun d => pyGetItem d "suitability")
      = Except.ok (PyVal.str "poor") ∧
    (pyGetItem (expected_answer_3A n) "evaluations" >>= fun e =>
      pyGetItem e "high_cholesterol" >>= fun d => pyGetItem d "suitability")
      = Except.ok (PyVal.str "poor") :=
  ⟨rfl, rfl, rfl⟩

/-- C1, counterexample: a response that parses as JSON but is not an
object (here the number `5`) makes the factual-accuracy comparator call
`.get` on a non-dict; the resulting `AttributeError` is not caught by
`_score_response` (which catches only `json.JSONDecodeError`), so
scoring raises to its caller instead of returning a zero sub-score. -/
theorem comparison_error_propagates :
    score_response pd1A (Option.some (PyVal.num 5)) = Except.error PyErr.attrError := rfl

/-- C1, amended: parse failure of the whole response is caught and
zeroes all sub-scores, and a missing response key is defaulted to `0`
and merely fails that criterion's tolerance check (here: the empty
object scores `0` with no exception); but a type mismatch — a response
that parses to a non-object, or a field holding a string where a number
is expected — raises an uncaught exception out of the scorer. -/
theorem failure_semantics_actual :
    (∀ pd : PromptData, score_response pd Option.none = Except.ok ⟨0, 0, 0, 0, 0⟩) ∧
    score_factual_accuracy (PyVal.dict []) (expected_answer_1A bananaN) = Except.ok 0 ∧
    score_response pd1A (Option.some (PyVal.list [])) = Except.error PyErr.attrError ∧
    score_factual_accuracy (PyVal.dict [("total_fat_g", PyVal.str "zero")])
      (expected_answer_1A bananaN) = Except.error PyErr.typeError := by
  refine ⟨fun pd => rfl, ?_, rfl, rfl⟩
  simp [score_factual_accuracy, check_carb_calculation, expected_answer_1A, bananaN,
    pyGet, pyGetItem, pySub, pyAsNum, List.lookup, abs_lt]
  all_goals norm_num

/-- C10: for every catalog entry whose identifier is not `1A`, `2A`,
`3A` or `4A`, any successfully parsed response scores `0` on all four
sub-scores and the total — the dispatcher returns `0.0` instead of
raising on an unknown identifier. -/
theorem unknown_prompt_id_zero (pd : PromptData) (r : PyVal)
    (h : pd.id ∉ (["1A", "2A", "3A", "4A"] : List String)) :
    score_response pd (Option.some r) = Except.ok ⟨0, 0, 0, 0, 0⟩ := by
  simp only [List.mem_cons, List.mem_singleton, not_or] at h
  obtain ⟨h1, h2, h3, h4, -⟩ := h
  simp [score_response, compare_json_accuracy, h1, h2, h3, h4]

/-- Witness for `unknown_prompt_id_zero` at the unknown identifier
`"9Z"` and the empty-object response. -/
theorem unknown_prompt_id_zero_witness :
    ("9Z" ∉ (["1A", "2A", "3A", "4A"] : List String)) ∧
    score_response ⟨"9Z", "Other", "Basic", PyVal.dict []⟩ (Option.some (PyVal.dict []))
      = Except.ok ⟨0, 0, 0, 0, 0⟩ :=
  ⟨by decide, unknown_prompt_id_zero _ _ (by decide)⟩

/-- C8: for every prompt and every successfully parsed response,
`_score_response` dispatches on the prompt identifier alone and returns
the single comparator accuracy value as all four sub-scores and the
total. -/
theorem json_mode_subscores_equal (pd : PromptData) (r : PyVal) (a : ℚ)
    (h : compare_json_accuracy r pd.expected_answer pd.id = Except.ok a) :
    score_response pd (Option.some r) = Except.ok ⟨a, a, a, a, a⟩ := by
  simp [score_response, h]

/-- Witness for `json_mode_subscores_equal`: the spec's full-credit 1A
scenario response scores accuracy `100`, and all five entries are
`100`. -/
theorem json_mode_subscores_equal_witness :
    compare_json_accuracy (mkResp1A (1/10) (225/10) (99/5) (27/10) (225/10))
      (expected_answer_1A bananaN) "1A" = Except.ok 100 ∧
    score_response pd1A (Option.some (mkResp1A (1/10) (225/10) (99/5) (27/10) (225/10)))
      = Except.ok ⟨100, 100, 100, 100, 100⟩ := by
  have h : compare_json_accuracy (mkResp1A (1/10) (225/10) (99/5) (27/10) (225/10))
      (expected_answer_1A bananaN) "1A" = Except.ok 100 := by
    simp [compare_json_accuracy, score_factual_accuracy, check_carb_calculation, mkResp1A,
      expected_answer_1A, bananaN, pyGet, pyGetItem, pySub, pyAsNum, List.lookup, abs_lt]
    all_goals norm_num
  exact ⟨h, json_mode_subscores_equal pd1A _ 100 h⟩

/-- C9: whenever scoring returns (for any prompt and any parse
outcome), each of the four sub-scores and the total lies in `[0, 100]`
— every comparator awards between `0` and its total points and scales
by `points / total * 100`. -/
theorem scores_in_unit_range (pd : PromptData) (parsed : Option PyVal) (s : ScoreDict)
    (h : score_response pd parsed = Except.ok s) :
    (0 ≤ s.accuracy ∧ s.accuracy ≤ 100) ∧
    (0 ≤ s.reasoning ∧ s.reasoning ≤ 100) ∧
    (0 ≤ s.completeness ∧ s.completeness ≤ 100) ∧
    (0 ≤ s.practical ∧ s.practical ≤ 100) ∧
    (0 ≤ s.total ∧ s.total ≤ 100) := by
  cases parsed with
  | none =>
      simp only [score_response, Except.ok.injEq] at h
      subst h
      norm_num
  | some r =>
      simp only [score_response] at h
      obtain ⟨a, ha, h⟩ := bind_eq_ok h
      have hb := compare_json_accuracy_range ha
      simp only [exceptPure_eq_ok, Except.ok.injEq] at h
      subst h
      exact ⟨hb, hb, hb, hb, hb⟩

/-- Witness for `scores_in_unit_range` at the 1A prompt with a
non-parsing response. -/
theorem scores_in_unit_range_witness :
    (0 ≤ (0 : ℚ) ∧ (0 : ℚ) ≤ 100) ∧ (0 ≤ (0 : ℚ) ∧ (0 : ℚ) ≤ 100) ∧
    (0 ≤ (0 : ℚ) ∧ (0 : ℚ) ≤ 100) ∧ (0 ≤ (0 : ℚ) ∧ (0 : ℚ) ≤ 100) ∧
    (0 ≤ (0 : ℚ) ∧ (0 : ℚ) ≤ 100) :=
  scores_in_unit_range pd1A Option.none ⟨0, 0, 0, 0, 0⟩ rfl

set_option maxHeartbeats 2000000 in
/-- C3: every numeric tolerance comparison is strict.  Perturbing
exactly one numeric field of an otherwise-exact response, the point (and
hence the full comparator score) is awarded precisely when the absolute
difference is strictly below the tolerance — `0.01` for each of the five
factual-accuracy comparisons, `0.1` for each of the four
mathematical-computation comparisons — so a difference exactly equal to
the tolerance loses the point. -/
theorem tolerance_boundary_strict (n : Nutrients) (v : ℚ) :
    (score_factual_accuracy
        (mkResp1A v (n.netCarbs + n.fiber) n.netCarbs n.fiber (n.netCarbs + n.fiber))
        (expected_answer_1A n)
      = Except.ok ((if |v - n.fat| < 1/100 then (3 : ℚ) else 2) / 3 * 100)) ∧
    (score_factual_accuracy
        (mkResp1A n.fat v n.netCarbs n.fiber (n.netCarbs + n.fiber))
        (expected_answer_1A n)
      = Except.ok ((if |v - (n.netCarbs + n.fiber)| < 1/100 then (3 : ℚ) else 2) / 3 * 100)) ∧
    (score_factual_accuracy
        (mkResp1A n.fat (n.netCarbs + n.fiber) v n.fiber (n.netCarbs + n.fiber))
        (expected_answer_1A n)
      = Except.ok ((if |v - n.netCarbs| < 1/100 then (3 : ℚ) else 2) / 3 * 100)) ∧
    (score_factual_accuracy
        (mkResp1A n.fat (n.netCarbs + n.fiber) n.netCarbs v (n.netCarbs + n.fiber))
        (expected_answer_1A n)
      = Except.ok ((if |v - n.fiber| < 1/100 then (3 : ℚ) else 2) / 3 * 100)) ∧
    (score_factual_accuracy
        (mkResp1A n.fat (n.netCarbs + n.fiber) n.netCarbs n.fiber v)
        (expected_answer_1A n)
      = Except.ok ((if |v - (n.netCarbs + n.fiber)| < 1/100 then (3 : ℚ) else 2) / 3 * 100)) ∧
    (score_mathematical_computation
        (mkResp2A v (n.protein * 4) (n.fat * 9) (n.alcohol * 7)
          ((n.netCarbs + n.fiber) * 4 + n.protein * 4 + n.fat * 9 + n.alcohol * 7))
        (expected_answer_2A n)
      = Except.ok ((if |v - (n.netCarbs + n.fiber) * 4| < 1/10 then (4 : ℚ) else 3) / 4 * 100)) ∧
    (score_mathematical_computation
        (mkResp2A ((n.netCarbs + n.fiber) * 4) v (n.fat * 9) (n.alcohol * 7)
          ((n.netCarbs + n.fiber) * 4 + n.protein * 4 + n.fat * 9 + n.alcohol * 7))
        (expected_answer_2A n)
      = Except.ok ((if |v - n.protein * 4| < 1/10 then (4 : ℚ) else 3) / 4 * 100)) ∧
    (score_mathematical_computation
        (mkResp2A ((n.netCarbs + n.fiber) * 4) (n.protein * 4) v (n.alcohol * 7)
          ((n.netCarbs + n.fiber) * 4 + n.protein * 4 + n.fat * 9 + n.alcohol * 7))
        (expected_answer_2A n)
      = Except.ok ((if |v - n.fat * 9| < 1/10 then (4 : ℚ) else 3) / 4 * 100)) ∧
    (score_mathematical_computation
        (mkResp2A ((n.netCarbs + n.fiber) * 4) (n.protein * 4) (n.fat * 9) (n.alcohol * 7) v)
        (expected_answer_2A n)
      = Except.ok
          ((if |v - ((n.netCarbs + n.fiber) * 4 + n.protein * 4 + n.fat * 9 + n.alcohol * 7)| < 1/10
            then (4 : ℚ) else 3) / 4 * 100)) := by
  refine ⟨?_, ?_, ?_, ?_, ?_, ?_, ?_, ?_, ?_⟩ <;>
    (simp [score_factual_accuracy, score_mathematical_computation, check_carb_calculation,
       mkResp1A, mkResp2A, expected_answer_1A, expected_answer_2A,
       pyGet, pyGetItem, pySub, pyAsNum, List.lookup]
     norm_num
     split_ifs <;> norm_num)

/-- C6: for every parsed error-detection response (any reported
count value, any list of reported field names), the score is
`(points / 3) * 100` where one point is awarded iff the reported
total-error-count Python-equals the expected count `2`, one iff
`"satFat"` appears among the reported field names, and one iff
`"sodium"` does; extra reported fields are never penalized.  In
particular the spec scenario — `total_errors` `3` with fields `satFat`,
`sodium`, `potassium` — scores `2/3 * 100`. -/
theorem error_detection_rubric :
    (∀ (m : Nutrients) (te : PyVal) (fields : List String),
      score_error_detection (mkResp4A te fields) (expected_answer_4A m)
        = Except.ok (((if pyEq te (PyVal.num 2) then (1 : ℚ) else 0) +
            (if "satFat" ∈ fields then 1 else 0) +
            (if "sodium" ∈ fields then 1 else 0)) / 3 * 100)) ∧
    score_error_detection (mkResp4A (PyVal.num 3) ["satFat", "sodium", "potassium"])
      (expected_answer_4A bananaN) = Except.ok (200/3) := by
  constructor
  · intro m te fields
    have h1 : pyGetOpt (mkResp4A te fields) "total_errors" = Except.ok te := by
      simp [mkResp4A, pyGetOpt, pyGet, List.lookup]
    have h2 : pyGet (mkResp4A te fields) "errors_found" (PyVal.list [])
        = Except.ok (PyVal.list (fields.map (fun f => PyVal.dict [("field", PyVal.str f)]))) := by
      simp [mkResp4A, pyGet, List.lookup]
    simp only [score_error_detection, h1, h2, exceptBind_ok]
    rw [show pyGetItem (expected_answer_4A m) "total_errors" = Except.ok (PyVal.num 2) from rfl]
    simp only [exceptBind_ok]
    rw [show pyGetItem (expected_answer_4A m) "errors_found"
      = Except.ok (PyVal.list [
          PyVal.dict [
            ("field", PyVal.str "satFat"),
            ("issue", PyVal.str ("Saturated fat (" ++ toString (m.fat + 10) ++
              "g) > total fat (" ++ toString m.fat ++ "g)")),
            ("why_problematic", PyVal.str
              "Saturated fat cannot exceed total fat - nutritionally impossible")],
          PyVal.dict [
            ("field", PyVal.str "sodium"),
            ("issue", PyVal.str "Negative sodium value (-5)"),
            ("why_problematic", PyVal.str
              "Sodium content cannot be negative - invalid data")]]) from rfl]
    simp [pyIter, pyListMap, pyGetItem, List.lookup, mapM_field, any_pyEq_str]
  · simp [score_error_detection, mkResp4A, expected_answer_4A, pyGetOpt, pyGet,
      pyGetItem, pyIter, pyListMap, List.lookup]
    norm_num

/-- C7: the scorer has a structured comparison mode — parse failure
yields all-zero scores and a successful parse yields the comparator
value copied into every entry — and (modelled from the spec, the legacy
code being absent from `src/`) a free-text heuristic mode whose four
keyword sub-scores are each capped at `100` and combined as
`total = 0.4*accuracy + 0.3*reasoning + 0.2*completeness +
0.1*practical`. -/
theorem two_scoring_modes (a r c p : ℚ) (pd : PromptData) (rv : PyVal) :
    (score_free_text a r c p).accuracy ≤ 100 ∧
    (score_free_text a r c p).reasoning ≤ 100 ∧
    (score_free_text a r c p).completeness ≤ 100 ∧
    (score_free_text a r c p).practical ≤ 100 ∧
    (score_free_text a r c p).total
      = 4/10 * (score_free_text a r c p).accuracy
        + 3/10 * (score_free_text a r c p).reasoning
        + 2/10 * (score_free_text a r c p).completeness
        + 1/10 * (score_free_text a r c p).practical ∧
    score_response pd Option.none = Except.ok ⟨0, 0, 0, 0, 0⟩ ∧
    score_response pd (Option.some rv)
      = Except.map (fun q => ScoreDict.mk q q q q q)
          (compare_json_accuracy rv pd.expected_answer pd.id) := by
  refine ⟨min_le_right _ _, min_le_right _ _, min_le_right _ _, min_le_right _ _,
    rfl, rfl, ?_⟩
  cases hc : compare_json_accuracy rv pd.expected_answer pd.id <;>
    simp [score_response, hc, Except.map]
